import Mathlib

/-!
Verification development for the ctldash service-control engine.

The definitions below are a shallow embedding of the Rust sources:
  - `src/systemd.rs` : the bus-facing catalog builder (`SystemdManager::list_services`,
    `get_unit_file_state`), the privileged enable/disable command runner, and the
    journalctl log reader (`get_service_logs`).
  - `src/update.rs` : the message-driven state update (`AppModel::update_message`).

External effects (the D-Bus connection, subprocess spawning) are modelled by
passing their observable outcomes as explicit arguments; each asynchronous
`Task::perform` block is modelled by a `SpawnedTask` descriptor together with a
pure function from the async block's outcome to the completion `Message`,
exactly mirroring the closures in the source.
-/

namespace Ctldash

/-- The two bus scopes, from `src/systemd.rs` (`ServiceScope`). -/
inductive ServiceScope where
  | system
  | user
deriving DecidableEq, Repr

/-- One unit record of the catalog, from `src/systemd.rs` (`SystemdService`). -/
structure SystemdService where
  name : String
  description : String
  load_state : String
  active_state : String
  sub_state : String
  unit_path : String
  unit_file_state : String
deriving DecidableEq, Repr

/-- Rust's `str::ends_with`, as a suffix test on the character list (chosen
over `String.endsWith` so that closed instances reduce inside the kernel). -/
def strEndsWith (s suffix : String) : Bool :=
  suffix.toList.isSuffixOf s.toList

/-- One entry of the `ListUnits` bus reply, from the 10-tuple decoded in
`SystemdManager::list_services` (`src/systemd.rs`, line 49). -/
structure ListedUnit where
  name : String
  description : String
  load_state : String
  active_state : String
  sub_state : String
  following : String
  unit_object_path : String
  job_id : Nat
  job_type : String
  job_object_path : String
deriving DecidableEq, Repr

/-- The observable behaviour of the per-unit bus objects during one catalog
build: whether creating the `org.freedesktop.systemd1.Unit` proxy for a given
object path succeeds, and the result of reading its `UnitFileState` property
(`none` models a failed property read). -/
structure UnitBusEnv where
  proxyOk : String → Bool
  unitFileStateProp : String → Option String

/-- `SystemdManager::get_unit_file_state` (`src/systemd.rs`, lines 78-93):
proxy-creation failure propagates as an error (`none`); a failed property read
is absorbed by `unwrap_or_else` into `"unknown"`. -/
def get_unit_file_state (env : UnitBusEnv) (unit_object_path : String) : Option String :=
  if env.proxyOk unit_object_path then
    some ((env.unitFileStateProp unit_object_path).getD "unknown")
  else
    none

/-- The record built for one listed unit inside the loop of
`SystemdManager::list_services` (`src/systemd.rs`, lines 54-70): the five
descriptive fields come directly from the `ListUnits` reply entry; only
`unit_file_state` involves a further per-unit bus call, with `unwrap_or_else`
degrading any failure to `"unknown"`. -/
def serviceOfListedUnit (env : UnitBusEnv) (u : ListedUnit) : SystemdService :=
  { name := u.name
    description := u.description
    load_state := u.load_state
    active_state := u.active_state
    sub_state := u.sub_state
    unit_path := u.unit_object_path
    unit_file_state := (get_unit_file_state env u.unit_object_path).getD "unknown" }

/-- The loop body of `SystemdManager::list_services`: keep the `ListUnits`
entries whose unit name ends in `".service"`, in reply order, and build one
record per kept entry. -/
def list_services_records (env : UnitBusEnv) (units : List ListedUnit) : List SystemdService :=
  (units.filter (fun u => strEndsWith u.name ".service")).map (serviceOfListedUnit env)

/-- `SystemdManager::list_services` (`src/systemd.rs`, lines 40-74): the whole
build fails (`none`) only if the initial `ListUnits` call fails; otherwise it
returns the records built from the reply. -/
def list_services (env : UnitBusEnv) (listUnitsReply : Option (List ListedUnit)) :
    Option (List SystemdService) :=
  listUnitsReply.map (list_services_records env)

/-- Captured output of a finished subprocess (`std::process::Output`):
`ExitStatus::success()` holds exactly when the exit code is zero. -/
structure CommandOutput where
  exitCode : Nat
  stdout : String
  stderr : String
deriving DecidableEq, Repr

/-- The two privileged toggle actions run through the command runner. -/
inductive ToggleAction where
  | enable
  | disable
deriving DecidableEq, Repr

def toggleActionWord : ToggleAction → String
  | .enable => "enable"
  | .disable => "disable"

/-- The argv composed by `SystemdManager::enable_service` / `disable_service`
(`src/systemd.rs`, lines 137-193): inside flatpak the chain is
`flatpak-spawn --host pkexec systemctl <action> <name>`, otherwise
`pkexec systemctl <action> <name>`. -/
def toggle_argv (flatpak : Bool) (action : ToggleAction) (service_name : String) :
    List String :=
  if flatpak then
    ["flatpak-spawn", "--host", "pkexec", "systemctl", toggleActionWord action, service_name]
  else
    ["pkexec", "systemctl", toggleActionWord action, service_name]

/-- The error prefix used in the non-zero-exit branch of `enable_service` /
`disable_service`. -/
def toggleFailText : ToggleAction → String
  | .enable => "Failed to enable service: "
  | .disable => "Failed to disable service: "

/-- Result handling of `SystemdManager::enable_service` / `disable_service`
(`src/systemd.rs`, lines 137-193), with the subprocess outcome passed
explicitly: a spawn failure is mapped to an execution error; a run that exits
non-zero becomes an error carrying the captured stderr; exit code zero is
success. -/
def toggle_service (flatpak : Bool) (action : ToggleAction)
    (spawn : Except String CommandOutput) : Except String Unit :=
  match spawn with
  | .error e =>
      .error ((if flatpak then "Failed to execute flatpak-spawn: "
               else "Failed to execute pkexec: ") ++ e)
  | .ok out =>
      if out.exitCode = 0 then .ok ()
      else .error (toggleFailText action ++ out.stderr)

/-- The unit-name normalization at the top of `SystemdManager::get_service_logs`
(`src/systemd.rs`, lines 196-200). -/
def normalize_unit_name (service_name : String) : String :=
  if strEndsWith service_name ".service" then service_name
  else service_name ++ ".service"

/-- The argv composed by `SystemdManager::get_service_logs`
(`src/systemd.rs`, lines 202-224). -/
def get_service_logs_argv (flatpak : Bool) (service_name : String) (lines : Nat) :
    List String :=
  let name := normalize_unit_name service_name
  if flatpak then
    ["flatpak-spawn", "--host", "journalctl", "-u", name, "-n", toString lines, "--no-pager"]
  else
    ["journalctl", "-u", name, "-n", toString lines, "--no-pager"]

/-- Result handling of `SystemdManager::get_service_logs`
(`src/systemd.rs`, lines 202-228): a spawn failure propagates as an error
(`map_err(..)?`); when the command ran, its stdout is returned with no check of
the exit status. -/
def get_service_logs (flatpak : Bool) (spawn : Except String CommandOutput) :
    Except String String :=
  match spawn with
  | .error e =>
      .error ((if flatpak then "Failed to execute flatpak-spawn: "
               else "Failed to execute journalctl: ") ++ e)
  | .ok out => .ok out.stdout

/-- The page shown by the UI, as used in `src/update.rs` (`Page::SystemServices`,
`Page::UserServices`, `Page::Details`). -/
inductive Page where
  | systemServices
  | userServices
  | details
deriving DecidableEq, Repr

/-- The engine messages of `src/message.rs` handled by
`AppModel::update_message` in `src/update.rs`.  The purely presentational
messages (`ToggleContextPage`, `LaunchUrl`) touch no engine state and are
omitted. -/
inductive Message where
  | loadServices (scope : ServiceScope)
  | servicesLoaded (scope : ServiceScope) (services : List SystemdService)
  | selectService (service : SystemdService)
  | backToList
  | startService (name : String)
  | stopService (name : String)
  | restartService (name : String)
  | enableService (name : String)
  | disableService (name : String)
  | serviceActionComplete
  | refreshServices
  | logsLoaded (logs : String)
  | refreshCurrentService
  | currentServiceRefreshed (service : Option SystemdService) (logs : String)
  | tick
  | searchFilterChanged (text : String)
deriving DecidableEq, Repr

/-- The five host-mutating service commands dispatched by `update_message`. -/
inductive ServiceCommand where
  | start
  | stop
  | restart
  | enable
  | disable
deriving DecidableEq, Repr

/-- Which `Message` constructor dispatches each command
(`src/update.rs`, lines 115-185). -/
def commandMessage : ServiceCommand → String → Message
  | .start, name => .startService name
  | .stop, name => .stopService name
  | .restart, name => .restartService name
  | .enable, name => .enableService name
  | .disable, name => .disableService name

/-- A descriptor of one asynchronous `Task::perform` block started by
`update_message`, recording which async closure was spawned and the arguments
it captured. -/
inductive SpawnedTask where
  | loadTask (scope : ServiceScope)
  | logsTask (name : String) (scope : ServiceScope) (lines : Nat)
  | commandTask (cmd : ServiceCommand) (name : String) (scope : ServiceScope)
  | emit (msg : Message)
  | refreshTask (name : String) (scope : ServiceScope)
deriving DecidableEq, Repr

/-- The engine-relevant fields of `AppModel` (`src/app.rs`, lines 19-44, plus
the `current_page` and `search_filter` fields written by `src/update.rs`). -/
structure AppModel where
  system_services : List SystemdService
  user_services : List SystemdService
  selected_service : Option SystemdService
  current_scope : ServiceScope
  service_logs : String
  is_loading : Bool
  current_page : Page
  search_filter : String
deriving DecidableEq, Repr

/-- `AppModel::update_message` (`src/update.rs`, lines 29-270), restricted to
the engine messages: the new state together with the list of asynchronous
tasks started by the handled arm. -/
def update_message (st : AppModel) (msg : Message) : AppModel × List SpawnedTask :=
  match msg with
  | .loadServices scope =>
      ({ st with is_loading := true, current_scope := scope }, [.loadTask scope])
  | .servicesLoaded scope services =>
      let st1 := { st with is_loading := false }
      let selName := st1.selected_service.map SystemdService.name
      match scope with
      | .system =>
          let st2 := { st1 with system_services := services }
          match selName with
          | some name =>
              ({ st2 with
                  selected_service := st2.system_services.find? (fun s => s.name == name) },
               [])
          | none => (st2, [])
      | .user =>
          let st2 := { st1 with user_services := services }
          match selName with
          | some name =>
              ({ st2 with
                  selected_service := st2.user_services.find? (fun s => s.name == name) },
               [])
          | none => (st2, [])
  | .selectService service =>
      ({ st with selected_service := some service, current_page := .details },
       [.logsTask service.name st.current_scope 100])
  | .logsLoaded logs => ({ st with service_logs := logs }, [])
  | .backToList =>
      ({ st with
          selected_service := none
          current_page := match st.current_scope with
            | .system => .systemServices
            | .user => .userServices },
       [])
  | .startService name => (st, [.commandTask .start name st.current_scope])
  | .stopService name => (st, [.commandTask .stop name st.current_scope])
  | .restartService name => (st, [.commandTask .restart name st.current_scope])
  | .enableService name => (st, [.commandTask .enable name st.current_scope])
  | .disableService name => (st, [.commandTask .disable name st.current_scope])
  | .serviceActionComplete => (st, [.emit (.loadServices st.current_scope)])
  | .refreshServices => (st, [.emit (.loadServices st.current_scope)])
  | .tick =>
      if st.selected_service.isSome then (st, [.emit .refreshCurrentService])
      else (st, [])
  | .refreshCurrentService =>
      match st.selected_service with
      | some service => (st, [.refreshTask service.name st.current_scope])
      | none => (st, [])
  | .currentServiceRefreshed serviceOpt logs =>
      match serviceOpt with
      | some updated =>
          let st1 := { st with selected_service := some updated, service_logs := logs }
          match st1.current_scope with
          | .system =>
              match st1.system_services.findIdx? (fun s => s.name == updated.name) with
              | some i =>
                  ({ st1 with system_services := st1.system_services.set i updated }, [])
              | none => (st1, [])
          | .user =>
              match st1.user_services.findIdx? (fun s => s.name == updated.name) with
              | some i =>
                  ({ st1 with user_services := st1.user_services.set i updated }, [])
              | none => (st1, [])
      | none => (st, [])
  | .searchFilterChanged text => ({ st with search_filter := text }, [])

/-- The completion mapping of the `LoadServices` async task
(`src/update.rs`, lines 34-47): on success the loaded scope and its services;
on any failure a hard-coded `ServicesLoaded(ServiceScope::System, Vec::new())`. -/
def loadServicesCompletion (scope : ServiceScope)
    (result : Option (List SystemdService)) : Message :=
  match result with
  | some services => .servicesLoaded scope services
  | none => .servicesLoaded .system []

/-- The completion mapping of the `SelectService` log-fetch task
(`src/update.rs`, lines 86-100). -/
def selectServiceCompletion (result : Option String) : Message :=
  match result with
  | some logs => .logsLoaded logs
  | none => .logsLoaded "Could not load logs"

/-- The completion mapping shared by all five command tasks
(`src/update.rs`, lines 115-185): the closure ignores the command's outcome and
always produces `ServiceActionComplete`. -/
def commandTaskCompletion (_success : Bool) : Message :=
  .serviceActionComplete

/-- The body of the `RefreshCurrentService` async task
(`src/update.rs`, lines 206-217): rebuild the catalog, look up the selected
name, and fetch logs only when the unit is still present. -/
def refreshTaskBody (serviceName : String)
    (listResult : Option (List SystemdService))
    (logsResult : Except String String) :
    Option (Option SystemdService × String) :=
  match listResult with
  | none => none
  | some services =>
      let updated := services.find? (fun s => s.name == serviceName)
      let logs := match updated with
        | some _ => logsResult.toOption.getD ""
        | none => ""
      some (updated, logs)

/-- The completion mapping of the `RefreshCurrentService` task
(`src/update.rs`, lines 218-224). -/
def refreshTaskCompletion (result : Option (Option SystemdService × String)) : Message :=
  match result with
  | some (service, logs) => .currentServiceRefreshed service logs
  | none => .currentServiceRefreshed none ""

/-! Concrete fixtures used by witnesses and counterexamples. -/

/-- A concrete running unit record. -/
def fooSvc : SystemdService :=
  { name := "foo.service", description := "Foo daemon", load_state := "loaded",
    active_state := "active", sub_state := "running",
    unit_path := "/org/freedesktop/systemd1/unit/foo", unit_file_state := "enabled" }

/-- The same unit after its sub-state changed from running to dead. -/
def fooSvcDead : SystemdService := { fooSvc with sub_state := "dead" }

/-- A second, unrelated unit record. -/
def barSvc : SystemdService :=
  { fooSvc with
    name := "bar.service"
    description := "Bar daemon"
    unit_path := "/org/freedesktop/systemd1/unit/bar" }

/-- An app state with empty caches, System scope active, nothing selected. -/
def baseModel : AppModel :=
  { system_services := [], user_services := [], selected_service := none,
    current_scope := .system, service_logs := "", is_loading := false,
    current_page := .systemServices, search_filter := "" }

/-- A state with `foo.service` selected. -/
def stSelFoo : AppModel := { baseModel with selected_service := some fooSvc }

/-- A state with no selection and a previously fetched log text. -/
def stNoSelOldLogs : AppModel := { baseModel with service_logs := "old logs" }

/-- A state with both scope caches populated and the User scope active. -/
def stTwoCaches : AppModel :=
  { baseModel with
    system_services := [fooSvc]
    user_services := [barSvc]
    current_scope := .user }

/-- A concrete `ListUnits` reply entry for a running service unit. -/
def fooListed : ListedUnit :=
  { name := "foo.service", description := "Foo daemon", load_state := "loaded",
    active_state := "active", sub_state := "running", following := "",
    unit_object_path := "/org/freedesktop/systemd1/unit/foo", job_id := 0,
    job_type := "", job_object_path := "/" }

/-- A second service entry. -/
def barListed : ListedUnit :=
  { fooListed with
    name := "bar.service"
    unit_object_path := "/org/freedesktop/systemd1/unit/bar" }

/-- A non-service entry, filtered out of the catalog. -/
def sockListed : ListedUnit :=
  { fooListed with
    name := "baz.socket"
    unit_object_path := "/org/freedesktop/systemd1/unit/bazsock" }

/-- A three-entry reply used by witnesses. -/
def unitsFixture : List ListedUnit := [fooListed, barListed, sockListed]

/-- A bus environment in which every per-unit read succeeds. -/
def envAllOk : UnitBusEnv :=
  { proxyOk := fun _ => true, unitFileStateProp := fun _ => some "enabled" }

/-- A bus environment in which creating every per-unit proxy fails. -/
def envAllFail : UnitBusEnv :=
  { proxyOk := fun _ => false, unitFileStateProp := fun _ => none }

/-! Spec-side definition used only to compare claim C5's description of the
catalog builder with the code's. -/

/-- Characters after the last slash: the recursion resets its accumulator at
every slash and returns what accumulated after the final one. -/
def lastSegmentAux : List Char → List Char → List Char
  | [], acc => acc
  | c :: rest, acc =>
      if c = '/' then lastSegmentAux rest [] else lastSegmentAux rest (acc ++ [c])

/-- Terminal path segment of a slash-separated path, per the spec's step
"filter to paths whose terminal path segment ends with the unit-type suffix;
derive name from that segment". -/
def lastSegment (path : String) : String :=
  String.mk (lastSegmentAux path.toList [])

/-- Spec-side candidate set of claim C5, written from the claim's words (not
from the code) for a refinement comparison: the file-based `listUnitFiles`
enumeration of `(unitPath, enablementState)` pairs, filtered by the
terminal-segment suffix, each candidate keeping the derived name and the
file-based enablement state, in enumeration order. -/
def buildCatalogFileBasedSpec (unitFiles : List (String × String)) :
    List (String × String) :=
  (unitFiles.filter (fun pf => strEndsWith (lastSegment pf.1) ".service")).map
    (fun pf => (lastSegment pf.1, pf.2))

/-! Helper lemmas. -/

/-- The names of a built catalog are the listed unit names filtered by the
".service" suffix, in reply order. -/
theorem list_services_records_names (env : UnitBusEnv) (units : List ListedUnit) :
    (list_services_records env units).map SystemdService.name
      = (units.map ListedUnit.name).filter (fun n => strEndsWith n ".service") := by
  rw [list_services_records, List.map_map, List.filter_map]
  rfl

/-! Claim theorems. -/

/-- Claim C1: when a full catalog reload completes while a unit is selected,
the selection becomes the first record of the newly loaded catalog with the
previously selected name (the refreshed record, so it is not cleared when such
a record exists), and it is cleared exactly when no record with that name
exists in the newly loaded catalog. -/
theorem C1_selection_rebind_on_reload (st : AppModel) (scope : ServiceScope)
    (services : List SystemdService) (sel : SystemdService)
    (h : st.selected_service = some sel) :
    ((update_message st (.servicesLoaded scope services)).1).selected_service
        = services.find? (fun s => s.name == sel.name)
    ∧ (((update_message st (.servicesLoaded scope services)).1).selected_service = none
        ↔ ∀ u ∈ services, u.name ≠ sel.name) := by
  cases scope <;> simp [update_message, h]

/-- Witness for C1: with `foo.service` selected and a reload delivering the
same unit with its sub-state changed to dead, the selection is rebound to the
refreshed record. -/
theorem C1_witness :
    ((update_message stSelFoo (.servicesLoaded .system [fooSvcDead])).1).selected_service
        = [fooSvcDead].find? (fun s => s.name == fooSvc.name)
    ∧ (((update_message stSelFoo (.servicesLoaded .system [fooSvcDead])).1).selected_service
          = none
        ↔ ∀ u ∈ [fooSvcDead], u.name ≠ fooSvc.name) :=
  C1_selection_rebind_on_reload stSelFoo .system [fooSvcDead] fooSvc rfl

/-- Claim C4 counterexample: a targeted refresh whose rebuilt catalog no
longer contains the selected unit completes as
`CurrentServiceRefreshed(None, "")`, and handling that completion leaves the
state unchanged — the selection stays bound to `foo.service` instead of being
cleared as the claim states. -/
theorem C4_counterexample :
    refreshTaskBody "foo.service" (some []) (.ok "log text") = some (none, "")
    ∧ refreshTaskCompletion (some (none, "")) = .currentServiceRefreshed none ""
    ∧ (update_message stSelFoo (.currentServiceRefreshed none "")).1 = stSelFoo
    ∧ stSelFoo.selected_service = some fooSvc :=
  ⟨rfl, rfl, rfl, rfl⟩

/-- Claim C4 amended: when the rebuilt catalog contains no unit with the
selected name, the targeted-refresh task completes with no unit and empty
logs, and handling that completion is a no-op: the whole state, the selection
included, is left unchanged (the selection is not cleared). -/
theorem C4_refresh_missing_is_noop (st : AppModel) (services : List SystemdService)
    (sel : SystemdService) (logsResult : Except String String)
    (h : st.selected_service = some sel)
    (hmiss : ∀ u ∈ services, u.name ≠ sel.name) :
    refreshTaskCompletion (refreshTaskBody sel.name (some services) logsResult)
        = .currentServiceRefreshed none ""
    ∧ update_message st (.currentServiceRefreshed none "") = (st, [])
    ∧ ((update_message st (.currentServiceRefreshed none "")).1).selected_service
        = some sel := by
  have hfind : services.find? (fun s => s.name == sel.name) = none := by
    simp only [List.find?_eq_none]
    intro u hu
    simpa using hmiss u hu
  exact ⟨by simp [refreshTaskBody, refreshTaskCompletion, hfind], rfl, by simp [update_message, h]⟩

/-- Witness for C4's amended theorem at a concrete state: `foo.service`
selected, rebuilt catalog containing only `bar.service`. -/
theorem C4_witness :
    refreshTaskCompletion (refreshTaskBody fooSvc.name (some [barSvc]) (.ok "log text"))
        = .currentServiceRefreshed none ""
    ∧ update_message stSelFoo (.currentServiceRefreshed none "") = (stSelFoo, [])
    ∧ ((update_message stSelFoo (.currentServiceRefreshed none "")).1).selected_service
        = some fooSvc :=
  C4_refresh_missing_is_noop stSelFoo [barSvc] fooSvc (.ok "log text") rfl (by decide)

/-- Claim C9 counterexample: a log-fetch completion arriving while no
selection exists is not discarded — it overwrites the cached log text. -/
theorem C9_counterexample :
    stNoSelOldLogs.selected_service = none
    ∧ stNoSelOldLogs.service_logs = "old logs"
    ∧ ((update_message stNoSelOldLogs (.logsLoaded "stale")).1).service_logs = "stale"
    ∧ ((update_message stNoSelOldLogs (.logsLoaded "stale")).1).service_logs
        ≠ stNoSelOldLogs.service_logs :=
  ⟨rfl, rfl, rfl, by decide⟩

/-- Claim C9 amended: a log-fetch completion arriving after the selection has
been cleared still overwrites the cached log text; every other cached field is
left unchanged and no task is started. -/
theorem C9_logsLoaded_always_overwrites (st : AppModel) (logs : String)
    (h : st.selected_service = none) :
    ((update_message st (.logsLoaded logs)).1).service_logs = logs
    ∧ ((update_message st (.logsLoaded logs)).1).selected_service = none
    ∧ ((update_message st (.logsLoaded logs)).1).system_services = st.system_services
    ∧ ((update_message st (.logsLoaded logs)).1).user_services = st.user_services
    ∧ ((update_message st (.logsLoaded logs)).1).current_scope = st.current_scope
    ∧ ((update_message st (.logsLoaded logs)).1).is_loading = st.is_loading
    ∧ ((update_message st (.logsLoaded logs)).1).current_page = st.current_page
    ∧ ((update_message st (.logsLoaded logs)).1).search_filter = st.search_filter
    ∧ (update_message st (.logsLoaded logs)).2 = [] := by
  simp [update_message, h]

/-- Witness for C9's amended theorem at a concrete deselected state. -/
theorem C9_witness :
    ((update_message stNoSelOldLogs (.logsLoaded "stale")).1).service_logs = "stale"
    ∧ ((update_message stNoSelOldLogs (.logsLoaded "stale")).1).selected_service = none
    ∧ ((update_message stNoSelOldLogs (.logsLoaded "stale")).1).system_services
        = stNoSelOldLogs.system_services
    ∧ ((update_message stNoSelOldLogs (.logsLoaded "stale")).1).user_services
        = stNoSelOldLogs.user_services
    ∧ ((update_message stNoSelOldLogs (.logsLoaded "stale")).1).current_scope
        = stNoSelOldLogs.current_scope
    ∧ ((update_message stNoSelOldLogs (.logsLoaded "stale")).1).is_loading
        = stNoSelOldLogs.is_loading
    ∧ ((update_message stNoSelOldLogs (.logsLoaded "stale")).1).current_page
        = stNoSelOldLogs.current_page
    ∧ ((update_message stNoSelOldLogs (.logsLoaded "stale")).1).search_filter
        = stNoSelOldLogs.search_filter
    ∧ (update_message stNoSelOldLogs (.logsLoaded "stale")).2 = [] :=
  C9_logsLoaded_always_overwrites stNoSelOldLogs "stale" rfl

/-- Claim C10: dispatching any of the five service commands changes no state
and spawns exactly one command task; that task's completion is
`ServiceActionComplete` whether the command succeeded or failed; handling
`ServiceActionComplete` emits exactly one `LoadServices` for the current
scope; and handling `LoadServices` starts exactly one full catalog reload of
that scope. -/
theorem C10_command_completion_single_reload (st st2 st3 : AppModel)
    (c : ServiceCommand) (name : String) (success : Bool) (scope : ServiceScope) :
    update_message st (commandMessage c name)
        = (st, [.commandTask c name st.current_scope])
    ∧ commandTaskCompletion success = .serviceActionComplete
    ∧ update_message st2 .serviceActionComplete
        = (st2, [.emit (.loadServices st2.current_scope)])
    ∧ update_message st3 (.loadServices scope)
        = ({ st3 with is_loading := true, current_scope := scope }, [.loadTask scope]) := by
  cases c <;> exact ⟨rfl, rfl, rfl, rfl⟩

/-- Claim C3 counterexample: a load initiated for the User scope that fails
completes as `ServicesLoaded(System, [])`, and handling that completion
empties the System scope's cached catalog — an operation for one scope writes
the other scope's cache. -/
theorem C3_counterexample :
    loadServicesCompletion .user none = .servicesLoaded .system []
    ∧ ((update_message stTwoCaches (loadServicesCompletion .user none)).1).system_services = []
    ∧ stTwoCaches.system_services = [fooSvc]
    ∧ ([] : List SystemdService) ≠ [fooSvc] :=
  ⟨rfl, rfl, rfl, by decide⟩

/-- Claim C3 amended: a load completion that delivers a catalog for a scope
writes only that scope's cached catalog; but a failed load completes as a
System-scope completion with an empty catalog, so — whichever scope initiated
the load — it empties the System cache and leaves the User cache unchanged. -/
theorem C3_scope_isolation_amended (st : AppModel) (services : List SystemdService)
    (scope : ServiceScope) :
    ((update_message st (loadServicesCompletion .system (some services))).1).user_services
        = st.user_services
    ∧ ((update_message st (loadServicesCompletion .user (some services))).1).system_services
        = st.system_services
    ∧ ((update_message st (loadServicesCompletion scope none)).1).system_services = []
    ∧ ((update_message st (loadServicesCompletion scope none)).1).user_services
        = st.user_services := by
  cases hsel : st.selected_service <;>
    simp [update_message, loadServicesCompletion, hsel]

/-- Claim C2 counterexample: with every per-unit bus read failing for a unit
listed as running, the built record keeps all four descriptive fields exactly
as reported by `ListUnits`, and the only degraded field is `unit_file_state`,
which becomes `"unknown"` — none of the defaults named by the claim (`""`,
`"not-loaded"`, `"inactive"`, `"dead"`) is produced. -/
theorem C2_counterexample :
    serviceOfListedUnit envAllFail fooListed
      = { name := "foo.service", description := "Foo daemon", load_state := "loaded",
          active_state := "active", sub_state := "running",
          unit_path := "/org/freedesktop/systemd1/unit/foo", unit_file_state := "unknown" }
    ∧ (serviceOfListedUnit envAllFail fooListed).active_state ≠ "inactive"
    ∧ (serviceOfListedUnit envAllFail fooListed).load_state ≠ "not-loaded"
    ∧ (serviceOfListedUnit envAllFail fooListed).sub_state ≠ "dead"
    ∧ (serviceOfListedUnit envAllFail fooListed).description ≠ "" :=
  ⟨rfl, by decide, by decide, by decide, by decide⟩

/-- Claim C2 amended: the four descriptive fields come atomically from the
`ListUnits` reply and cannot individually fail; the only fallible per-unit
read is the `UnitFileState` property, and when it fails (at proxy creation or
at the property read) only `unit_file_state` degrades, to `"unknown"`, the
other fields keeping the listed values; the catalog build as a whole still
succeeds. -/
theorem C2_unit_file_state_degrades_alone (env : UnitBusEnv) (u : ListedUnit)
    (h : env.proxyOk u.unit_object_path = false
        ∨ env.unitFileStateProp u.unit_object_path = none) :
    (serviceOfListedUnit env u).unit_file_state = "unknown"
    ∧ (serviceOfListedUnit env u).name = u.name
    ∧ (serviceOfListedUnit env u).description = u.description
    ∧ (serviceOfListedUnit env u).load_state = u.load_state
    ∧ (serviceOfListedUnit env u).active_state = u.active_state
    ∧ (serviceOfListedUnit env u).sub_state = u.sub_state
    ∧ ∀ units : List ListedUnit, (list_services env (some units)).isSome = true := by
  refine ⟨?_, rfl, rfl, rfl, rfl, rfl, fun units => rfl⟩
  rcases h with h | h <;>
    cases hp : env.proxyOk u.unit_object_path <;>
      simp_all [serviceOfListedUnit, get_unit_file_state]

/-- Witness for C2's amended theorem: the concrete all-failures environment on
the concrete listed unit. -/
theorem C2_witness :
    (serviceOfListedUnit envAllFail fooListed).unit_file_state = "unknown"
    ∧ (serviceOfListedUnit envAllFail fooListed).name = fooListed.name
    ∧ (serviceOfListedUnit envAllFail fooListed).description = fooListed.description
    ∧ (serviceOfListedUnit envAllFail fooListed).load_state = fooListed.load_state
    ∧ (serviceOfListedUnit envAllFail fooListed).active_state = fooListed.active_state
    ∧ (serviceOfListedUnit envAllFail fooListed).sub_state = fooListed.sub_state
    ∧ ∀ units : List ListedUnit, (list_services envAllFail (some units)).isSome = true :=
  C2_unit_file_state_degrades_alone envAllFail fooListed (Or.inl rfl)

/-- Claim C5 counterexample: in a host state with one installed but not loaded
unit file `/x/foo.service` — so the file-based enumeration reports it while
`ListUnits` reports nothing — the spec-side candidate set contains
`foo.service` but the code's catalog is empty: the code enumerates loaded
units via `ListUnits`, not installed unit files. -/
theorem C5_counterexample :
    list_services envAllOk (some []) = some []
    ∧ (buildCatalogFileBasedSpec [("/x/foo.service", "enabled")]).map Prod.fst
        = ["foo.service"]
    ∧ (list_services_records envAllOk []).map SystemdService.name
        ≠ (buildCatalogFileBasedSpec [("/x/foo.service", "enabled")]).map Prod.fst := by
  refine ⟨rfl, ?_, ?_⟩ <;> decide

/-- Claim C5 amended: the candidate set of a catalog build is the runtime
`ListUnits` enumeration filtered to units whose name ends with ".service",
emitted in enumeration order, and each record's enablement state is read per
unit from the `UnitFileState` property of its unit object (degrading to
`"unknown"`), not derived from a file-based enumeration. -/
theorem C5_catalog_from_runtime_listing (env : UnitBusEnv) (units : List ListedUnit) :
    (list_services_records env units).map SystemdService.name
        = (units.map ListedUnit.name).filter (fun n => strEndsWith n ".service")
    ∧ ∀ s ∈ list_services_records env units,
        s.unit_file_state = (get_unit_file_state env s.unit_path).getD "unknown" := by
  refine ⟨list_services_records_names env units, ?_⟩
  intro s hs
  rcases List.mem_map.mp hs with ⟨u, _, rfl⟩
  rfl

/-- Witness for C5's amended theorem on the concrete three-entry reply, with
the membership hypothesis discharged for the first built record. -/
theorem C5_witness :
    ((list_services_records envAllOk unitsFixture).map SystemdService.name
        = (unitsFixture.map ListedUnit.name).filter (fun n => strEndsWith n ".service"))
    ∧ (serviceOfListedUnit envAllOk fooListed).unit_file_state
        = (get_unit_file_state envAllOk
            (serviceOfListedUnit envAllOk fooListed).unit_path).getD "unknown" :=
  ⟨(C5_catalog_from_runtime_listing envAllOk unitsFixture).1,
   (C5_catalog_from_runtime_listing envAllOk unitsFixture).2
     (serviceOfListedUnit envAllOk fooListed) (by decide)⟩

/-- Claim C6: every record of a built catalog has a name ending in
".service", and whenever the bus enumeration lists pairwise-distinct unit
names — which the systemd manager guarantees, listing each loaded unit once —
the catalog's names are pairwise distinct. -/
theorem C6_names_suffix_and_unique (env : UnitBusEnv) (units : List ListedUnit) :
    (∀ s ∈ list_services_records env units, strEndsWith s.name ".service" = true)
    ∧ ((units.map ListedUnit.name).Nodup →
        ((list_services_records env units).map SystemdService.name).Nodup) := by
  constructor
  · intro s hs
    rcases List.mem_map.mp hs with ⟨u, hu, rfl⟩
    exact (List.mem_filter.mp hu).2
  · intro h
    rw [list_services_records_names]
    exact List.Nodup.sublist (List.filter_sublist _) h

/-- Witness for C6 on the concrete three-entry reply, with the nodup
hypothesis discharged by computation. -/
theorem C6_witness :
    (∀ s ∈ list_services_records envAllOk unitsFixture,
        strEndsWith s.name ".service" = true)
    ∧ ((list_services_records envAllOk unitsFixture).map SystemdService.name).Nodup :=
  ⟨(C6_names_suffix_and_unique envAllOk unitsFixture).1,
   (C6_names_suffix_and_unique envAllOk unitsFixture).2 (by decide)⟩

/-- Claim C7: for both toggle actions the runner composes the three-stage
sandbox-escape, privilege-elevation, `systemctl <action> <name>` command when
the sandbox probe is positive and the two-stage elevation command otherwise;
a run succeeds exactly when its exit code is zero, and a non-zero exit yields
an error carrying the captured stderr text. -/
theorem C7_toggle_command_shape (flatpak : Bool) (a : ToggleAction) (name : String)
    (out : CommandOutput) :
    toggle_argv flatpak a name
        = (if flatpak then ["flatpak-spawn", "--host"] else [])
          ++ ["pkexec"] ++ ["systemctl", toggleActionWord a, name]
    ∧ (toggle_service flatpak a (.ok out) = .ok () ↔ out.exitCode = 0)
    ∧ (out.exitCode ≠ 0 →
        toggle_service flatpak a (.ok out) = .error (toggleFailText a ++ out.stderr)) := by
  refine ⟨by cases flatpak <;> rfl, ?_, ?_⟩
  · by_cases h : out.exitCode = 0 <;> simp [toggle_service, h]
  · intro h
    simp [toggle_service, h]

/-- Witness for C7: the spec's elevation-failure scenario, `disable` inside
flatpak exiting 1 with stderr "not authorized". -/
theorem C7_witness :
    toggle_argv true .disable "foo.service"
        = (if true then ["flatpak-spawn", "--host"] else [])
          ++ ["pkexec"] ++ ["systemctl", toggleActionWord .disable, "foo.service"]
    ∧ (toggle_service true .disable
          (.ok { exitCode := 1, stdout := "", stderr := "not authorized" }) = .ok ()
        ↔ (1 : Nat) = 0)
    ∧ ((1 : Nat) ≠ 0 →
        toggle_service true .disable
            (.ok { exitCode := 1, stdout := "", stderr := "not authorized" })
          = .error (toggleFailText .disable ++ "not authorized")) :=
  C7_toggle_command_shape true .disable "foo.service"
    { exitCode := 1, stdout := "", stderr := "not authorized" }

/-- Claim C8 counterexample: when the journalctl subprocess cannot even be
spawned, `get_service_logs` returns a hard error to its caller instead of a
best-effort text result. -/
theorem C8_counterexample :
    get_service_logs false (.error "spawn failed")
        = .error ("Failed to execute journalctl: " ++ "spawn failed")
    ∧ (get_service_logs false (.error "spawn failed")).isOk = false :=
  ⟨rfl, rfl⟩

/-- Claim C8 amended: when the log command runs, its stdout is returned as the
result text regardless of the exit code; when the subprocess cannot be
spawned, an execution error is returned to the caller — the call sites absorb
it with `unwrap_or_default` into the empty string. The invoked command is the
sandbox-aware journalctl invocation on the suffix-normalized unit name. -/
theorem C8_logs_stdout_regardless_of_exit (flatpak : Bool) (out : CommandOutput)
    (e : String) (service_name : String) (lines : Nat) :
    get_service_logs flatpak (.ok out) = .ok out.stdout
    ∧ (get_service_logs flatpak (.error e)).isOk = false
    ∧ (get_service_logs flatpak (.error e)).toOption.getD "" = ""
    ∧ get_service_logs_argv flatpak service_name lines
        = (if flatpak then ["flatpak-spawn", "--host"] else [])
          ++ ["journalctl", "-u", normalize_unit_name service_name, "-n",
              toString lines, "--no-pager"] := by
  refine ⟨rfl, rfl, rfl, ?_⟩
  cases flatpak <;> rfl

end Ctldash
